import Mathlib

/-!
Verification of the metadata-to-route binding engine of `bisslog-flask`.

The definitions below are a shallow embedding of
`src/bisslog_flask/init_flask_app.py`.  Python strings are modelled as
`List Char` (`PyStr`); Python dictionaries that the code merely passes
around are modelled as association lists; opaque Python callables are
modelled by numeric identifiers.  Module import is modelled by an
environment `Env : module path -> symbol name -> Option (Option Nat)`:
`none` means the module has no such attribute (`hasattr` is false), and
`some v` means the attribute exists with value `v`, where the inner
`Option` distinguishes a Python `None` value from a real callable.
Fatal module-import errors are outside the claims treated here, so the
environment models an importable module.
-/

namespace BisslogFlask

abbrev PyStr := List Char

/-- Python `str.upper`, restricted to the ASCII range the code relies on. -/
def pyUpper (s : PyStr) : PyStr := s.map Char.toUpper

/-- Python `str.lower`, restricted to the ASCII range the code relies on. -/
def pyLower (s : PyStr) : PyStr := s.map Char.toLower

/-! ## Data model (bisslog_schema objects as consumed by the code) -/

inductive TriggerType where
  | http
  | websocket
  | other
deriving DecidableEq

/-- The HTTP trigger options object (`TriggerHttp`).  `allow_cors` and
`allowed_origins` are optional attributes; the code tests them with
Python truthiness. -/
structure TriggerHttp where
  method : PyStr
  path : PyStr
  mapper : Option Nat
  allow_cors : Option Bool
  allowed_origins : Option (List PyStr)
deriving DecidableEq

/-- Polymorphic `trigger.options` payload: either the HTTP variant or
some other shape (the code checks `isinstance(trigger.options, TriggerHttp)`). -/
inductive TriggerOptions where
  | http (opts : TriggerHttp)
  | nonHttp
deriving DecidableEq

structure TriggerInfo where
  type : TriggerType
  options : TriggerOptions
deriving DecidableEq

structure UseCaseInfo where
  keyname : PyStr
  triggers : List TriggerInfo
deriving DecidableEq

structure ServiceInfo where
  name : PyStr
  use_cases : List UseCaseInfo
deriving DecidableEq

/-! ## CORS configuration (`_configure_endpoint_cors`) -/

inductive Origins where
  | wildcard
  | list (origins : List PyStr)
deriving DecidableEq

structure CorsConfig where
  methods : List PyStr
  allow_headers : List PyStr
  supports_credentials : Bool
  origins : Origins
deriving DecidableEq

/-- Embedding of `_configure_endpoint_cors` (init_flask_app.py lines 55-72).
Returns the per-route CORS policy attached to the route, or `none` when
the code returns without applying one.  `opts.allow_cors.getD false`
is the truthiness of the optional `allow_cors` attribute, and the
match on `allowed_origins` is the truthiness test `if
trigger_options.allowed_origins:`. -/
def configure_endpoint_cors (opts : TriggerHttp) : Option CorsConfig :=
  if !(opts.allow_cors.getD false) then none
  else some
    { methods := [pyUpper opts.method]
      allow_headers := ["Content-Type".data, "Authorization".data]
      supports_credentials := true
      origins :=
        match opts.allowed_origins with
        | some l => if l.isEmpty then Origins.wildcard else Origins.list l
        | none => Origins.wildcard }

/-! ## Path conversion (`_add_use_case`, line 86) -/

/-- Python `s.replace(a, b)` for a single-character pattern: every
occurrence of the character `a` becomes `b`. -/
def replaceChar (a b : Char) (s : PyStr) : PyStr :=
  s.map (fun c => if c = a then b else c)

/-- Embedding of `trigger.options.path.replace("{", "<").replace("}", ">")`. -/
def convertPath (s : PyStr) : PyStr :=
  replaceChar '}' '>' (replaceChar '{' '<' s)

/-- A path template decomposed into literal segments and `\x7bname\x7d`
placeholders. -/
inductive PathPart where
  | lit (s : PyStr)
  | param (name : PyStr)
deriving DecidableEq

/-- Render a decomposed template back to its brace syntax. -/
def renderTemplate : List PathPart → PyStr
  | [] => []
  | PathPart.lit s :: rest => s ++ renderTemplate rest
  | PathPart.param n :: rest => '{' :: (n ++ '}' :: renderTemplate rest)

/-- Render a decomposed template in Flask's angle-bracket syntax. -/
def renderFlask : List PathPart → PyStr
  | [] => []
  | PathPart.lit s :: rest => s ++ renderFlask rest
  | PathPart.param n :: rest => '<' :: (n ++ '>' :: renderFlask rest)

/-- A part is well formed when its text contains no brace characters. -/
def partOk : PathPart → Prop
  | PathPart.lit s => '{' ∉ s ∧ '}' ∉ s
  | PathPart.param n => '{' ∉ n ∧ '}' ∉ n

instance : DecidablePred partOk := by
  intro p
  cases p <;> exact instDecidableAnd

/-- The two single-character replacements compose into one character map. -/
def convertChar (c : Char) : Char :=
  if c = '{' then '<' else if c = '}' then '>' else c

lemma convertPath_eq_map (s : PyStr) : convertPath s = s.map convertChar := by
  unfold convertPath replaceChar
  rw [List.map_map]
  apply List.map_congr_left
  intro c _
  simp only [Function.comp, convertChar]
  by_cases h1 : c = '{'
  · simp [h1]
  · by_cases h2 : c = '}' <;> simp [h1, h2]

lemma map_convertChar_id (s : PyStr) (h1 : '{' ∉ s) (h2 : '}' ∉ s) :
    s.map convertChar = s := by
  have h : s.map convertChar = s.map id := by
    apply List.map_congr_left
    intro c hc
    unfold convertChar
    rw [if_neg, if_neg]
    · rfl
    · intro he; exact h2 (he ▸ hc)
    · intro he; exact h1 (he ▸ hc)
  simpa using h

/-! ## Use-case symbol derivation (init_flask_app.py lines 156-159) -/

/-- Embedding of `re.sub(r"([A-Z])", r" \1", keyname)`: a space is
inserted before every ASCII upper-case letter. -/
def reSubUpperSpace (s : PyStr) : PyStr :=
  s.flatMap (fun c => if c.isUpper then [' ', c] else [c])

/-- Accumulator worker for Python `str.split()` with no separator:
runs of whitespace separate the pieces and empty pieces are dropped.
`acc` is the piece currently being collected. -/
def pySplitAux : PyStr → PyStr → List PyStr
  | [], acc => if acc = [] then [] else [acc]
  | c :: cs, acc =>
    if c.isWhitespace then
      if acc = [] then pySplitAux cs [] else acc :: pySplitAux cs []
    else pySplitAux cs (acc ++ [c])

/-- Python `keyname.split()` (split on whitespace, dropping empties). -/
def pySplit (s : PyStr) : List PyStr := pySplitAux s []

/-- Python `"_".join(pieces)`. -/
def joinUnderscore : List PyStr → PyStr
  | [] => []
  | [s] => s
  | s :: rest => s ++ '_' :: joinUnderscore rest

/-- Embedding of the symbol-name computation
`"_".join([i.upper() for i in re.sub(r"([A-Z])", r" \1", keyname).split()])`. -/
def deriveVar (keyname : PyStr) : PyStr :=
  joinUnderscore ((pySplit (reSubUpperSpace keyname)).map pyUpper)

/-- Embedding of the module path f-string at line 156: the source root,
a dot, then the keyname. -/
def deriveModulePath (use_case_src keyname : PyStr) : PyStr :=
  use_case_src ++ '.' :: keyname

/-- Splitting a string into camel-case segments, following the spec's
words: each upper-case letter starts a new segment.  `acc` is the
segment currently being collected. -/
def camelSegmentsAux : PyStr → PyStr → List PyStr
  | [], acc => if acc = [] then [] else [acc]
  | c :: cs, acc =>
    if c.isUpper then
      if acc = [] then camelSegmentsAux cs [c] else acc :: camelSegmentsAux cs [c]
    else camelSegmentsAux cs (acc ++ [c])

/-- Camel-case segmentation of a keyname, per the spec's words. -/
def camelSegments (s : PyStr) : List PyStr := camelSegmentsAux s []

/-- The symbol name as the spec describes it: split the keyname at
camel-case boundaries, upper-case each segment, join with underscores. -/
def specVar (keyname : PyStr) : PyStr :=
  joinUnderscore ((camelSegments keyname).map pyUpper)

lemma isUpper_not_ws {c : Char} (h : c.isUpper = true) : c.isWhitespace = false := by
  by_contra hw
  rw [Bool.not_eq_false] at hw
  have hd : ((c = ' ' ∨ c = '\t') ∨ c = '\r') ∨ c = '\n' := by
    simpa [Char.isWhitespace] using hw
  rcases hd with ((h1 | h1) | h1) | h1 <;> subst h1 <;> exact absurd h (by decide)

lemma pySplitAux_reSub (l : PyStr) (hl : ∀ c ∈ l, c.isWhitespace = false) :
    ∀ acc, pySplitAux (reSubUpperSpace l) acc = camelSegmentsAux l acc := by
  induction l with
  | nil => intro acc; rfl
  | cons c cs ih =>
    intro acc
    have hc : c.isWhitespace = false := hl c (List.mem_cons_self c cs)
    have hcs : ∀ d ∈ cs, d.isWhitespace = false :=
      fun d hd => hl d (List.mem_cons_of_mem c hd)
    have hsp : (' ' : Char).isWhitespace = true := by decide
    cases hu : c.isUpper with
    | true =>
      have hexp : reSubUpperSpace (c :: cs) = ' ' :: c :: reSubUpperSpace cs := by
        simp [reSubUpperSpace, hu]
      have h1 : pySplitAux (c :: reSubUpperSpace cs) []
          = pySplitAux (reSubUpperSpace cs) [c] := by
        simp [pySplitAux, hc]
      rw [hexp]
      simp [pySplitAux, hsp, hc, h1, ih hcs, camelSegmentsAux, hu]
    | false =>
      have hexp : reSubUpperSpace (c :: cs) = c :: reSubUpperSpace cs := by
        simp [reSubUpperSpace, hu]
      rw [hexp]
      simp [pySplitAux, hc, camelSegmentsAux, hu, ih hcs]

lemma pySplit_reSub (l : PyStr) (hl : ∀ c ∈ l, c.isWhitespace = false) :
    pySplit (reSubUpperSpace l) = camelSegments l :=
  pySplitAux_reSub l hl []

/-! ## Request adapter (`_lambda_fn`, init_flask_app.py lines 24-40) -/

/-- Keyword-argument dictionaries: values are opaque and numbered. -/
abbrev Kw := List (PyStr × Nat)

/-- The Flask request object, as far as `_lambda_fn` reads it.
`json` is `request.get_json(silent=True)`: `none` when the body is
absent or invalid JSON. -/
structure Request where
  method : PyStr
  view_args : Option Kw
  json : Option Kw
  args : Kw
  headers : Kw

/-- What the adapter hands back to Flask: either the raw callable
result or its `jsonify` serialization. -/
inductive Response where
  | raw (v : Nat)
  | json (v : Nat)
deriving DecidableEq

/-- True when the two dictionaries share a key; `fn(*args, **kwargs,
**more_kwargs)` raises `TypeError` (duplicate keyword argument) in that
case, before `fn` runs. -/
def keysOverlap (k1 k2 : Kw) : Bool :=
  k1.any (fun p => k2.any (fun q => p.1 == q.1))

/-- The request snapshot dictionary literal built at lines 32-37. -/
def requestSnapshot (req : Request) : List (PyStr × Kw) :=
  [("path_query".data, req.view_args.getD []),
   ("body".data, req.json.getD []),
   ("params".data, req.args),
   ("headers".data, req.headers)]

/-- Embedding of `_lambda_fn`.  The callable `fn` is a mathematical
function of its positional and keyword arguments; the second component
of the result is the trace of invocations of `fn` (argument pairs), so
"invoked exactly once" and "not invoked" are statable.  A `TypeError`
from duplicate keyword arguments is `Except.error ()`. -/
def lambda_fn (req : Request) (fn : List Nat → Kw → Nat)
    (mapper : Option (List (PyStr × Kw) → Kw))
    (args : List Nat) (kwargs : Kw) :
    Except Unit Response × List (List Nat × Kw) :=
  match mapper with
  | none =>
    let more_kwargs : Kw :=
      if pyLower req.method ∈ [("get".data : PyStr)] then []
      else req.json.getD []
    if keysOverlap kwargs more_kwargs then (Except.error (), [])
    else (Except.ok (Response.raw (fn args (kwargs ++ more_kwargs))),
          [(args, kwargs ++ more_kwargs)])
  | some m =>
    let res_map := m (requestSnapshot req)
    (Except.ok (Response.json (fn [] res_map)), [([], res_map)])

/-! ## The binding loop (`init_flask_app`, lines 103-171) -/

/-- The import environment: module path and attribute name to lookup
result.  `none`: the module has no such attribute.  `some none`: the
attribute exists and is Python `None`.  `some (some f)`: the attribute
exists and is the callable numbered `f`. -/
abbrev Env := PyStr → PyStr → Option (Option Nat)

/-- One registered Flask route (an `app.add_url_rule` call together
with the CORS policy applied to its path just before). -/
structure Route where
  path : PyStr
  endpoint : PyStr
  methods : List PyStr
  fn : Nat
  mapper : Option Nat
  cors : Option CorsConfig
deriving DecidableEq

/-- Embedding of `_add_use_case` (lines 75-100): returns the route
registered for this trigger, or `none` when `trigger.options` is not a
`TriggerHttp` (the guard at line 82). -/
def add_use_case (keyname : PyStr) (use_case_function : Nat)
    (trigger : TriggerInfo) : Option Route :=
  match trigger.options with
  | TriggerOptions.nonHttp => none
  | TriggerOptions.http opts =>
    some { path := convertPath opts.path
           endpoint := keyname
           methods := [pyUpper opts.method]
           fn := use_case_function
           mapper := opts.mapper
           cors := configure_endpoint_cors opts }

/-- The per-use-case loop state: the `use_case_function` local variable,
the number of `importlib.import_module` calls performed, the routes
registered so far and the diagnostics printed so far. -/
structure BindState where
  use_case_function : Option Nat
  importCount : Nat
  routes : List Route
  diags : List PyStr
deriving DecidableEq

def initialBindState : BindState :=
  { use_case_function := none, importCount := 0, routes := [], diags := [] }

/-- A trigger qualifies when its type is HTTP or WEBSOCKET (the
`continue` guard at lines 151-152). -/
def qualifies (t : TriggerInfo) : Bool :=
  t.type == TriggerType.http || t.type == TriggerType.websocket

/-- The diagnostic printed at line 166 when the derived symbol is
absent from the imported module. -/
def notFoundMsg (keyname : PyStr) : PyStr :=
  "Use case implementation not found: ".data ++ keyname

/-- Embedding of one iteration of the inner loop (lines 150-169). -/
def processTrigger (env : Env) (use_case_src : PyStr) (uc : UseCaseInfo)
    (st : BindState) (trigger : TriggerInfo) : BindState :=
  if !(qualifies trigger) then st
  else
    match st.use_case_function with
    | none =>
      let st1 := { st with importCount := st.importCount + 1 }
      match env (deriveModulePath use_case_src uc.keyname) (deriveVar uc.keyname) with
      | none =>
        { st1 with diags := st1.diags ++ [notFoundMsg uc.keyname] }
      | some v =>
        let st2 := { st1 with use_case_function := v }
        match v with
        | none => st2
        | some f =>
          match add_use_case uc.keyname f trigger with
          | none => st2
          | some r => { st2 with routes := st2.routes ++ [r] }
    | some f =>
      match add_use_case uc.keyname f trigger with
      | none => st
      | some r => { st with routes := st.routes ++ [r] }

/-- Embedding of the inner loop over one use case's triggers. -/
def processUseCase (env : Env) (use_case_src : PyStr) (uc : UseCaseInfo) : BindState :=
  uc.triggers.foldl (processTrigger env use_case_src uc) initialBindState

/-- The Flask application object, as far as `init_flask_app` touches
it: its name, its configuration dictionary and its route table. -/
structure FlaskApp where
  name : PyStr
  config : List (PyStr × PyStr)
  routes : List Route
deriving DecidableEq

/-- Embedding of `init_flask_app` (lines 103-171), with
`read_service_metadata` already performed (its result is
`service_info`) and the import machinery abstracted into `env`. -/
def init_flask_app (env : Env) (service_info : ServiceInfo)
    (app0 : Option FlaskApp) (secret_key jwt_secret_key : Option PyStr)
    (use_case_src : PyStr) : FlaskApp :=
  let app := app0.getD { name := service_info.name, config := [], routes := [] }
  let app := match secret_key with
    | none => app
    | some k => { app with config := app.config ++ [("SECRET_KEY".data, k)] }
  let app := match jwt_secret_key with
    | none => app
    | some k => { app with config := app.config ++ [("JWT_SECRET_KEY".data, k)] }
  let newRoutes :=
    service_info.use_cases.flatMap (fun uc => (processUseCase env use_case_src uc).routes)
  { app with routes := app.routes ++ newRoutes }

/-! ## Claim theorems -/

/-- C1: for every HTTP trigger, if `allow_cors` is false or absent no
cross-origin policy is attached; if it is true the policy has methods =
the singleton upper-cased method, headers = exactly Content-Type and
Authorization, supports-credentials = true, and origins = the declared
`allowed_origins` when present and non-empty, else the wildcard. -/
theorem C1_cors_policy (opts : TriggerHttp) :
    ((opts.allow_cors = none ∨ opts.allow_cors = some false) →
      configure_endpoint_cors opts = none) ∧
    (opts.allow_cors = some true →
      ∃ c, configure_endpoint_cors opts = some c ∧
        c.methods = [pyUpper opts.method] ∧
        c.allow_headers = ["Content-Type".data, "Authorization".data] ∧
        c.supports_credentials = true ∧
        (∀ l, opts.allowed_origins = some l → l ≠ [] → c.origins = Origins.list l) ∧
        ((opts.allowed_origins = none ∨ opts.allowed_origins = some []) →
          c.origins = Origins.wildcard)) := by
  constructor
  · intro h
    rcases h with h | h <;> simp [configure_endpoint_cors, h]
  · intro h
    refine ⟨{ methods := [pyUpper opts.method]
              allow_headers := ["Content-Type".data, "Authorization".data]
              supports_credentials := true
              origins :=
                match opts.allowed_origins with
                | some l => if l.isEmpty then Origins.wildcard else Origins.list l
                | none => Origins.wildcard }, ?_, rfl, rfl, rfl, ?_, ?_⟩
    · simp [configure_endpoint_cors, h]
    · intro l hl hne
      simp [hl, List.isEmpty_iff, hne]
    · intro hor
      rcases hor with hor | hor <;> simp [hor]

def corsOptsOff : TriggerHttp :=
  { method := "get".data, path := "/a".data, mapper := none,
    allow_cors := none, allowed_origins := none }

def corsOptsOn : TriggerHttp :=
  { method := "post".data, path := "/a".data, mapper := none,
    allow_cors := some true, allowed_origins := none }

theorem C1_cors_policy_witness :
    configure_endpoint_cors corsOptsOff = none ∧
    ∃ c, configure_endpoint_cors corsOptsOn = some c ∧
      c.methods = [pyUpper corsOptsOn.method] ∧
      c.allow_headers = ["Content-Type".data, "Authorization".data] ∧
      c.supports_credentials = true ∧
      (∀ l, corsOptsOn.allowed_origins = some l → l ≠ [] →
        c.origins = Origins.list l) ∧
      ((corsOptsOn.allowed_origins = none ∨ corsOptsOn.allowed_origins = some []) →
        c.origins = Origins.wildcard) :=
  ⟨(C1_cors_policy corsOptsOff).1 (Or.inl rfl),
   (C1_cors_policy corsOptsOn).2 rfl⟩

/-- C2: path conversion rewrites every brace placeholder to the
angle-bracket form and leaves literal segments unchanged, for any
template whose literal segments and placeholder names are brace-free. -/
theorem C2_path_conversion (parts : List PathPart) (h : ∀ p ∈ parts, partOk p) :
    convertPath (renderTemplate parts) = renderFlask parts := by
  induction parts with
  | nil => rfl
  | cons p ps ih =>
    have hp := h p (List.mem_cons_self p ps)
    have hps : ∀ q ∈ ps, partOk q := fun q hq => h q (List.mem_cons_of_mem p hq)
    cases p with
    | lit s =>
      rcases hp with ⟨h1, h2⟩
      simp only [renderTemplate, renderFlask, convertPath_eq_map, List.map_append]
      rw [map_convertChar_id s h1 h2, ← convertPath_eq_map, ih hps]
    | param n =>
      rcases hp with ⟨h1, h2⟩
      have e1 : convertChar '{' = '<' := by decide
      have e2 : convertChar '}' = '>' := by decide
      simp only [renderTemplate, renderFlask, convertPath_eq_map, List.map_cons,
        List.map_append, e1, e2]
      rw [map_convertChar_id n h1 h2, ← convertPath_eq_map, ih hps]

def examplePathParts : List PathPart :=
  [PathPart.lit "/users/".data, PathPart.param "id".data,
   PathPart.lit "/posts/".data, PathPart.param "postId".data]

theorem C2_path_conversion_witness :
    convertPath (renderTemplate examplePathParts) = renderFlask examplePathParts ∧
    renderTemplate examplePathParts = "/users/\x7bid\x7d/posts/\x7bpostId\x7d".data ∧
    renderFlask examplePathParts = "/users/<id>/posts/<postId>".data :=
  ⟨C2_path_conversion examplePathParts (by decide), by decide, by decide⟩

/-- C6: for every whitespace-free keyname, the derived import-symbol
name equals the upper-snake-casing of the keyname's camel-case
segments (each upper-case letter starts a new segment, segments are
upper-cased and joined with underscores), and the submodule path is
`<root>.<keyname>`. -/
theorem C6_symbol_derivation (keyname use_case_src : PyStr)
    (h : ∀ c ∈ keyname, c.isWhitespace = false) :
    deriveVar keyname = specVar keyname ∧
    deriveModulePath use_case_src keyname = use_case_src ++ '.' :: keyname := by
  constructor
  · unfold deriveVar specVar
    rw [pySplit_reSub keyname h]
  · rfl

theorem C6_symbol_derivation_witness :
    deriveVar "myUseCase".data = specVar "myUseCase".data ∧
    deriveVar "myUseCase".data = "MY_USE_CASE".data ∧
    deriveModulePath "use_cases".data "myUseCase".data = "use_cases.myUseCase".data :=
  ⟨(C6_symbol_derivation "myUseCase".data "use_cases".data (by decide)).1,
   by decide, by decide⟩

/-- C4: with no mapper, the adapter calls the wrapped callable with the
framework-supplied positional and keyword arguments, merging in the
decoded JSON body only when the lower-cased method is not "get" (GET
requests never merge the body, whatever its content), and hands back
the callable's result unmodified. -/
theorem C4_no_mapper (req : Request) (fn : List Nat → Kw → Nat)
    (args : List Nat) (kwargs : Kw) :
    (pyLower req.method = "get".data →
      lambda_fn req fn none args kwargs
        = (Except.ok (Response.raw (fn args kwargs)), [(args, kwargs)])) ∧
    (pyLower req.method ≠ "get".data →
      keysOverlap kwargs (req.json.getD []) = false →
      lambda_fn req fn none args kwargs
        = (Except.ok (Response.raw (fn args (kwargs ++ req.json.getD []))),
           [(args, kwargs ++ req.json.getD [])])) := by
  constructor
  · intro h
    simp [lambda_fn, h, keysOverlap]
  · intro h hov
    simp [lambda_fn, h, hov]

def reqGetExample : Request :=
  { method := "GET".data, view_args := none,
    json := some [("id".data, 5)], args := [], headers := [] }

def reqPostExample : Request :=
  { method := "POST".data, view_args := none,
    json := some [("b".data, 5)], args := [], headers := [] }

theorem C4_no_mapper_witness :
    lambda_fn reqGetExample (fun _ k => k.length) none [] [("a".data, 1)]
      = (Except.ok (Response.raw 1), [([], [("a".data, 1)])]) ∧
    lambda_fn reqPostExample (fun _ k => k.length) none [] [("a".data, 1)]
      = (Except.ok (Response.raw 2), [([], [("a".data, 1), ("b".data, 5)])]) :=
  ⟨(C4_no_mapper reqGetExample (fun _ k => k.length) [] [("a".data, 1)]).1 (by decide),
   (C4_no_mapper reqPostExample (fun _ k => k.length) [] [("a".data, 1)]).2
     (by decide) (by decide)⟩

/-- C5: with a mapper, the adapter builds the snapshot dictionary with
exactly the keys path_query, body, params and headers (in that order,
with the documented defaulting), feeds it to the mapper, invokes the
wrapped callable exactly once with the mapper's output as keyword
arguments, and returns the jsonify-serialized result. -/
theorem C5_with_mapper (req : Request) (fn : List Nat → Kw → Nat)
    (m : List (PyStr × Kw) → Kw) (args : List Nat) (kwargs : Kw) :
    lambda_fn req fn (some m) args kwargs
      = (Except.ok (Response.json (fn [] (m (requestSnapshot req)))),
         [([], m (requestSnapshot req))]) ∧
    (requestSnapshot req).map Prod.fst
      = ["path_query".data, "body".data, "params".data, "headers".data] ∧
    (requestSnapshot req).map Prod.snd
      = [req.view_args.getD [], req.json.getD [], req.args, req.headers] ∧
    (lambda_fn req fn (some m) args kwargs).2.length = 1 := by
  refine ⟨rfl, rfl, rfl, rfl⟩

/-- C10: with no mapper, when the decoded body of a non-GET request
shares a key with a framework-supplied keyword argument, the call
raises the duplicate-keyword-argument `TypeError` and the wrapped
callable is never invoked (the invocation trace is empty). -/
theorem C10_duplicate_keyword (req : Request) (fn : List Nat → Kw → Nat)
    (args : List Nat) (kwargs : Kw) (k : PyStr) (v w : Nat)
    (hmethod : pyLower req.method ≠ "get".data)
    (hkw : (k, v) ∈ kwargs) (hbody : (k, w) ∈ req.json.getD []) :
    lambda_fn req fn none args kwargs = (Except.error (), []) := by
  have hov : keysOverlap kwargs (req.json.getD []) = true := by
    unfold keysOverlap
    rw [List.any_eq_true]
    refine ⟨(k, v), hkw, ?_⟩
    rw [List.any_eq_true]
    exact ⟨(k, w), hbody, by simp⟩
  simp [lambda_fn, hmethod, hov]

def reqPostId : Request :=
  { method := "POST".data, view_args := some [("id".data, 1)],
    json := some [("id".data, 7)], args := [], headers := [] }

theorem C10_duplicate_keyword_witness :
    lambda_fn reqPostId (fun _ k => k.length) none [] [("id".data, 1)]
      = (Except.error (), []) :=
  C10_duplicate_keyword reqPostId (fun _ k => k.length) [] [("id".data, 1)]
    "id".data 1 7 (by decide) (by decide) (by decide)

/-! ## Lemmas about the binding loop -/

lemma add_use_case_fn (k : PyStr) (f : Nat) (t : TriggerInfo) (r : Route)
    (h : add_use_case k f t = some r) : r.fn = f := by
  unfold add_use_case at h
  cases hopt : t.options with
  | nonHttp => rw [hopt] at h; exact absurd h (by simp)
  | http opts =>
    rw [hopt] at h
    rw [Option.some_inj] at h
    rw [← h]

lemma processTrigger_nonqual (env : Env) (src : PyStr) (uc : UseCaseInfo)
    (st : BindState) (t : TriggerInfo) (hq : qualifies t = false) :
    processTrigger env src uc st t = st := by
  simp [processTrigger, hq]

lemma processTrigger_some_none (env : Env) (src : PyStr) (uc : UseCaseInfo)
    (st : BindState) (t : TriggerInfo) (f : Nat)
    (h : st.use_case_function = some f) (hq : qualifies t = true)
    (hadd : add_use_case uc.keyname f t = none) :
    processTrigger env src uc st t = st := by
  simp [processTrigger, hq, h, hadd]

lemma processTrigger_some_some (env : Env) (src : PyStr) (uc : UseCaseInfo)
    (st : BindState) (t : TriggerInfo) (f : Nat) (r : Route)
    (h : st.use_case_function = some f) (hq : qualifies t = true)
    (hadd : add_use_case uc.keyname f t = some r) :
    processTrigger env src uc st t = { st with routes := st.routes ++ [r] } := by
  simp [processTrigger, hq, h, hadd]

lemma processTrigger_resolved (env : Env) (src : PyStr) (uc : UseCaseInfo)
    (st : BindState) (t : TriggerInfo) (f : Nat)
    (h : st.use_case_function = some f) :
    (processTrigger env src uc st t).use_case_function = some f ∧
    (processTrigger env src uc st t).importCount = st.importCount ∧
    (processTrigger env src uc st t).diags = st.diags ∧
    ((processTrigger env src uc st t).routes = st.routes ∨
      ∃ r, (processTrigger env src uc st t).routes = st.routes ++ [r] ∧ r.fn = f) := by
  cases hq : qualifies t with
  | false =>
    rw [processTrigger_nonqual env src uc st t hq]
    exact ⟨h, rfl, rfl, Or.inl rfl⟩
  | true =>
    cases hadd : add_use_case uc.keyname f t with
    | none =>
      rw [processTrigger_some_none env src uc st t f h hq hadd]
      exact ⟨h, rfl, rfl, Or.inl rfl⟩
    | some r =>
      rw [processTrigger_some_some env src uc st t f r h hq hadd]
      exact ⟨h, rfl, rfl, Or.inr ⟨r, rfl, add_use_case_fn _ _ _ _ hadd⟩⟩

lemma foldl_resolved (env : Env) (src : PyStr) (uc : UseCaseInfo) (f : Nat) :
    ∀ (ts : List TriggerInfo) (st : BindState),
      st.use_case_function = some f → (∀ r ∈ st.routes, r.fn = f) →
      (ts.foldl (processTrigger env src uc) st).use_case_function = some f ∧
      (ts.foldl (processTrigger env src uc) st).importCount = st.importCount ∧
      (ts.foldl (processTrigger env src uc) st).diags = st.diags ∧
      ∀ r ∈ (ts.foldl (processTrigger env src uc) st).routes, r.fn = f := by
  intro ts
  induction ts with
  | nil => intro st h hr; exact ⟨h, rfl, rfl, hr⟩
  | cons t ts ih =>
    intro st h hr
    rw [List.foldl_cons]
    obtain ⟨h1, h2, h3, h4⟩ := processTrigger_resolved env src uc st t f h
    have hr' : ∀ r ∈ (processTrigger env src uc st t).routes, r.fn = f := by
      rcases h4 with h4 | ⟨r, h4, hrf⟩
      · rw [h4]; exact hr
      · rw [h4]
        intro x hx
        rcases List.mem_append.mp hx with hx | hx
        · exact hr x hx
        · rw [List.mem_singleton.mp hx]; exact hrf
    obtain ⟨g1, g2, g3, g4⟩ := ih (processTrigger env src uc st t) h1 hr'
    exact ⟨g1, by rw [g2, h2], by rw [g3, h3], g4⟩

lemma processTrigger_initial_none (env : Env) (src : PyStr) (uc : UseCaseInfo)
    (t : TriggerInfo) (f : Nat)
    (hres : env (deriveModulePath src uc.keyname) (deriveVar uc.keyname) = some (some f))
    (hq : qualifies t = true)
    (hadd : add_use_case uc.keyname f t = none) :
    processTrigger env src uc initialBindState t
      = { use_case_function := some f, importCount := 1, routes := [], diags := [] } := by
  simp [processTrigger, initialBindState, hq, hres, hadd]

lemma processTrigger_initial_some (env : Env) (src : PyStr) (uc : UseCaseInfo)
    (t : TriggerInfo) (f : Nat) (r : Route)
    (hres : env (deriveModulePath src uc.keyname) (deriveVar uc.keyname) = some (some f))
    (hq : qualifies t = true)
    (hadd : add_use_case uc.keyname f t = some r) :
    processTrigger env src uc initialBindState t
      = { use_case_function := some f, importCount := 1, routes := [r], diags := [] } := by
  simp [processTrigger, initialBindState, hq, hres, hadd]

lemma processTrigger_initial_resolved (env : Env) (src : PyStr) (uc : UseCaseInfo)
    (t : TriggerInfo) (f : Nat)
    (hres : env (deriveModulePath src uc.keyname) (deriveVar uc.keyname) = some (some f))
    (hq : qualifies t = true) :
    (processTrigger env src uc initialBindState t).use_case_function = some f ∧
    (processTrigger env src uc initialBindState t).importCount = 1 ∧
    (processTrigger env src uc initialBindState t).diags = [] ∧
    ∀ r ∈ (processTrigger env src uc initialBindState t).routes, r.fn = f := by
  cases hadd : add_use_case uc.keyname f t with
  | none =>
    rw [processTrigger_initial_none env src uc t f hres hq hadd]
    exact ⟨rfl, rfl, rfl, by intro x hx; exact absurd hx (by simp)⟩
  | some r =>
    rw [processTrigger_initial_some env src uc t f r hres hq hadd]
    refine ⟨rfl, rfl, rfl, ?_⟩
    intro x hx
    rw [List.mem_singleton.mp hx]
    exact add_use_case_fn _ _ _ _ hadd

lemma processTrigger_missing (env : Env) (src : PyStr) (uc : UseCaseInfo)
    (st : BindState) (t : TriggerInfo)
    (h : st.use_case_function = none)
    (hmiss : env (deriveModulePath src uc.keyname) (deriveVar uc.keyname) = none)
    (hq : qualifies t = true) :
    processTrigger env src uc st t
      = { use_case_function := none, importCount := st.importCount + 1,
          routes := st.routes, diags := st.diags ++ [notFoundMsg uc.keyname] } := by
  simp [processTrigger, hq, h, hmiss]

lemma foldl_missing (env : Env) (src : PyStr) (uc : UseCaseInfo)
    (hmiss : env (deriveModulePath src uc.keyname) (deriveVar uc.keyname) = none) :
    ∀ (ts : List TriggerInfo) (st : BindState), st.use_case_function = none →
      (ts.foldl (processTrigger env src uc) st).use_case_function = none ∧
      (ts.foldl (processTrigger env src uc) st).routes = st.routes ∧
      (ts.foldl (processTrigger env src uc) st).importCount
        = st.importCount + ts.countP qualifies ∧
      (ts.foldl (processTrigger env src uc) st).diags.length
        = st.diags.length + ts.countP qualifies := by
  intro ts
  induction ts with
  | nil => intro st h; simp [h]
  | cons t ts ih =>
    intro st h
    rw [List.foldl_cons]
    cases hq : qualifies t with
    | false =>
      rw [processTrigger_nonqual env src uc st t hq]
      obtain ⟨g1, g2, g3, g4⟩ := ih st h
      refine ⟨g1, g2, ?_, ?_⟩ <;> simp [List.countP_cons, hq, g3, g4]
    | true =>
      rw [processTrigger_missing env src uc st t h hmiss hq]
      obtain ⟨g1, g2, g3, g4⟩ :=
        ih { use_case_function := none, importCount := st.importCount + 1,
             routes := st.routes, diags := st.diags ++ [notFoundMsg uc.keyname] } rfl
      refine ⟨g1, g2, ?_, ?_⟩
      · rw [g3]; simp [List.countP_cons, hq]; omega
      · rw [g4]; simp [List.countP_cons, hq]; omega

lemma foldl_nonqual (env : Env) (src : PyStr) (uc : UseCaseInfo) :
    ∀ (ts : List TriggerInfo) (st : BindState), (∀ t ∈ ts, qualifies t = false) →
      ts.foldl (processTrigger env src uc) st = st := by
  intro ts
  induction ts with
  | nil => intro st _; rfl
  | cons t ts ih =>
    intro st h
    rw [List.foldl_cons,
      processTrigger_nonqual env src uc st t (h t (List.mem_cons_self t ts))]
    exact ih st (fun x hx => h x (List.mem_cons_of_mem t hx))

/-- The route table of the built application is the accumulation, use
case by use case, of the per-use-case registrations. -/
lemma init_flask_app_routes (env : Env) (service_info : ServiceInfo)
    (app0 : Option FlaskApp) (sk jk : Option PyStr) (src : PyStr) :
    (init_flask_app env service_info app0 sk jk src).routes
      = (init_flask_app env { service_info with use_cases := [] } app0 sk jk src).routes
        ++ service_info.use_cases.flatMap
             (fun uc => (processUseCase env src uc).routes) := by
  cases app0 <;> cases sk <;> cases jk <;> simp [init_flask_app, processUseCase]

/-- The configuration written by `init_flask_app` does not depend on
the use-case list. -/
lemma init_flask_app_config (env : Env) (name : PyStr)
    (ucs ucs' : List UseCaseInfo)
    (app0 : Option FlaskApp) (sk jk : Option PyStr) (src : PyStr) :
    (init_flask_app env ⟨name, ucs⟩ app0 sk jk src).config
      = (init_flask_app env ⟨name, ucs'⟩ app0 sk jk src).config := by
  cases app0 <;> cases sk <;> cases jk <;> simp [init_flask_app]

/-! ## Concrete fixtures for the loop claims -/

def httpOptsPlain : TriggerHttp :=
  { method := "get".data, path := "/a".data, mapper := none,
    allow_cors := none, allowed_origins := none }

def tHttpPlain : TriggerInfo :=
  { type := TriggerType.http, options := TriggerOptions.http httpOptsPlain }

def tOther : TriggerInfo :=
  { type := TriggerType.other, options := TriggerOptions.nonHttp }

def ucTwoHttp : UseCaseInfo :=
  { keyname := "a".data, triggers := [tHttpPlain, tHttpPlain] }

def ucOneHttp : UseCaseInfo :=
  { keyname := "a".data, triggers := [tHttpPlain] }

def ucNoQual : UseCaseInfo :=
  { keyname := "b".data, triggers := [tOther] }

/-- A module environment in which no module has the looked-up symbol. -/
def envMissing : Env := fun _ _ => none

/-- A module environment in which every lookup resolves to callable 7. -/
def envSeven : Env := fun _ _ => some (some 7)

/-- C3 counterexample: a use case with two qualifying HTTP triggers
whose (importable) module lacks the derived symbol runs the module
machinery twice — one import per qualifying trigger — not exactly once
as the claim states for every use case. -/
theorem C3_import_once_counterexample :
    (processUseCase envMissing "use_cases".data ucTwoHttp).importCount = 2 ∧
    ¬ (processUseCase envMissing "use_cases".data ucTwoHttp).importCount = 1 := by
  constructor <;> decide

/-- C3 (amended): provided the lookup on the first qualifying trigger
resolves the derived symbol to a non-None callable, the import is
performed exactly once — on the first qualifying trigger — and every
registered route reuses that resolved callable. -/
theorem C3_import_once_amended (env : Env) (src : PyStr) (uc : UseCaseInfo) (f : Nat)
    (hres : env (deriveModulePath src uc.keyname) (deriveVar uc.keyname)
      = some (some f)) :
    (processUseCase env src uc).importCount
      = (if uc.triggers.any qualifies then 1 else 0) ∧
    (processUseCase env src uc).use_case_function
      = (if uc.triggers.any qualifies then some f else none) ∧
    ∀ r ∈ (processUseCase env src uc).routes, r.fn = f := by
  unfold processUseCase
  suffices h : ∀ ts : List TriggerInfo,
      (ts.foldl (processTrigger env src uc) initialBindState).importCount
        = (if ts.any qualifies then 1 else 0) ∧
      (ts.foldl (processTrigger env src uc) initialBindState).use_case_function
        = (if ts.any qualifies then some f else none) ∧
      ∀ r ∈ (ts.foldl (processTrigger env src uc) initialBindState).routes,
        r.fn = f by
    exact h uc.triggers
  intro ts
  induction ts with
  | nil => exact ⟨rfl, rfl, by intro r hr; exact absurd hr (by simp [initialBindState])⟩
  | cons t ts ih =>
    rw [List.foldl_cons]
    cases hq : qualifies t with
    | false =>
      rw [processTrigger_nonqual env src uc initialBindState t hq]
      simpa [List.any_cons, hq] using ih
    | true =>
      obtain ⟨h1, h2, h3, h4⟩ := processTrigger_initial_resolved env src uc t f hres hq
      obtain ⟨g1, g2, g3, g4⟩ := foldl_resolved env src uc f ts _ h1 h4
      refine ⟨?_, ?_, g4⟩
      · rw [g2, h2]; simp [List.any_cons, hq]
      · rw [g1]; simp [List.any_cons, hq]

theorem C3_import_once_witness :
    (processUseCase envSeven "use_cases".data ucTwoHttp).importCount = 1 ∧
    ∀ r ∈ (processUseCase envSeven "use_cases".data ucTwoHttp).routes, r.fn = 7 := by
  obtain ⟨h1, _, h3⟩ :=
    C3_import_once_amended envSeven "use_cases".data ucTwoHttp 7 rfl
  exact ⟨by rw [h1]; decide, h3⟩

/-- C7: when the module imports but lacks the derived symbol, binding
is non-fatal — no route is registered for that use case, a diagnostic
is emitted, and the application built from any service containing the
use case has the same route table and configuration as without it. -/
theorem C7_missing_symbol_nonfatal (env : Env) (src : PyStr) (uc : UseCaseInfo)
    (hmiss : env (deriveModulePath src uc.keyname) (deriveVar uc.keyname) = none)
    (hq : ∃ t ∈ uc.triggers, qualifies t = true) :
    (processUseCase env src uc).routes = [] ∧
    (processUseCase env src uc).diags ≠ [] ∧
    ∀ (name : PyStr) (ucs1 ucs2 : List UseCaseInfo) (app0 : Option FlaskApp)
      (sk jk : Option PyStr),
      (init_flask_app env ⟨name, ucs1 ++ uc :: ucs2⟩ app0 sk jk src).routes
        = (init_flask_app env ⟨name, ucs1 ++ ucs2⟩ app0 sk jk src).routes ∧
      (init_flask_app env ⟨name, ucs1 ++ uc :: ucs2⟩ app0 sk jk src).config
        = (init_flask_app env ⟨name, ucs1 ++ ucs2⟩ app0 sk jk src).config := by
  obtain ⟨g1, g2, g3, g4⟩ :=
    foldl_missing env src uc hmiss uc.triggers initialBindState rfl
  have hroutes : (processUseCase env src uc).routes = [] := g2
  have hcount : 0 < uc.triggers.countP qualifies := by
    rw [List.countP_pos_iff]
    obtain ⟨t, ht, hqt⟩ := hq
    exact ⟨t, ht, hqt⟩
  have hdiags : (processUseCase env src uc).diags ≠ [] := by
    have hlen : 0 < (processUseCase env src uc).diags.length := by
      unfold processUseCase
      rw [g4]
      simpa [initialBindState] using hcount
    exact List.ne_nil_of_length_pos hlen
  refine ⟨hroutes, hdiags, ?_⟩
  intro name ucs1 ucs2 app0 sk jk
  constructor
  · rw [init_flask_app_routes env ⟨name, ucs1 ++ uc :: ucs2⟩ app0 sk jk src,
      init_flask_app_routes env ⟨name, ucs1 ++ ucs2⟩ app0 sk jk src]
    simp [List.flatMap_append, List.flatMap_cons, hroutes]
  · exact init_flask_app_config env name _ _ app0 sk jk src

theorem C7_missing_symbol_nonfatal_witness :
    (processUseCase envMissing "use_cases".data ucOneHttp).routes = [] ∧
    (processUseCase envMissing "use_cases".data ucOneHttp).diags ≠ [] ∧
    ((init_flask_app envMissing ⟨"s".data, [ucOneHttp]⟩ none none none
        "use_cases".data).routes
      = (init_flask_app envMissing ⟨"s".data, []⟩ none none none
          "use_cases".data).routes ∧
     (init_flask_app envMissing ⟨"s".data, [ucOneHttp]⟩ none none none
        "use_cases".data).config
      = (init_flask_app envMissing ⟨"s".data, []⟩ none none none
          "use_cases".data).config) := by
  obtain ⟨h1, h2, h3⟩ :=
    C7_missing_symbol_nonfatal envMissing "use_cases".data ucOneHttp rfl
      (by decide)
  exact ⟨h1, h2, h3 "s".data [] [] none none none⟩

/-- C9: a use case with no HTTP or WEBSOCKET trigger causes no
module import, no symbol lookup and no route registration, and the built
application's route table and configuration are the same as if the use
case were absent. -/
theorem C9_no_qualifying_triggers (env : Env) (src : PyStr) (uc : UseCaseInfo)
    (h : ∀ t ∈ uc.triggers, qualifies t = false) :
    (processUseCase env src uc).importCount = 0 ∧
    (processUseCase env src uc).routes = [] ∧
    (processUseCase env src uc).diags = [] ∧
    ∀ (name : PyStr) (ucs1 ucs2 : List UseCaseInfo) (app0 : Option FlaskApp)
      (sk jk : Option PyStr),
      (init_flask_app env ⟨name, ucs1 ++ uc :: ucs2⟩ app0 sk jk src).routes
        = (init_flask_app env ⟨name, ucs1 ++ ucs2⟩ app0 sk jk src).routes ∧
      (init_flask_app env ⟨name, ucs1 ++ uc :: ucs2⟩ app0 sk jk src).config
        = (init_flask_app env ⟨name, ucs1 ++ ucs2⟩ app0 sk jk src).config := by
  have heq : processUseCase env src uc = initialBindState :=
    foldl_nonqual env src uc uc.triggers initialBindState h
  have hroutes : (processUseCase env src uc).routes = [] := by rw [heq]; rfl
  refine ⟨by rw [heq]; rfl, hroutes, by rw [heq]; rfl, ?_⟩
  intro name ucs1 ucs2 app0 sk jk
  constructor
  · rw [init_flask_app_routes env ⟨name, ucs1 ++ uc :: ucs2⟩ app0 sk jk src,
      init_flask_app_routes env ⟨name, ucs1 ++ ucs2⟩ app0 sk jk src]
    simp [List.flatMap_append, List.flatMap_cons, hroutes]
  · exact init_flask_app_config env name _ _ app0 sk jk src

theorem C9_no_qualifying_triggers_witness :
    (processUseCase envSeven "use_cases".data ucNoQual).importCount = 0 ∧
    (processUseCase envSeven "use_cases".data ucNoQual).routes = [] ∧
    (processUseCase envSeven "use_cases".data ucNoQual).diags = [] ∧
    ((init_flask_app envSeven ⟨"s".data, [ucNoQual]⟩ none none none
        "use_cases".data).routes
      = (init_flask_app envSeven ⟨"s".data, []⟩ none none none
          "use_cases".data).routes ∧
     (init_flask_app envSeven ⟨"s".data, [ucNoQual]⟩ none none none
        "use_cases".data).config
      = (init_flask_app envSeven ⟨"s".data, []⟩ none none none
          "use_cases".data).config) := by
  obtain ⟨h1, h2, h3, h4⟩ :=
    C9_no_qualifying_triggers envSeven "use_cases".data ucNoQual (by decide)
  exact ⟨h1, h2, h3, h4 "s".data [] [] none none none⟩

/-! ## Static code generation (builder, modelled from the spec) -/

/-- Use-case code metadata: class-based (module, class name, requires
instantiation) or object-based (module, instance name), both carrying a
docstring and the originating keyname. -/
inductive UseCaseCodeInfo where
  | cls (keyname docs mod className : PyStr)
  | obj (keyname docs mod instanceName : PyStr)
deriving DecidableEq

/-- A generated code fragment: build text plus an import table from
module path to imported symbol names. -/
structure StaticPythonConstructData where
  build : PyStr
  importing : List (PyStr × List PyStr)
deriving DecidableEq

/-- Modelled from the spec: `BuilderFlaskAppManager._generate_use_case_code_build`
is not present under src (only its unit tests are).  Per spec 4.6 and
the unit test, a class-based use case yields the derived name
`<keyname>_uc`, a build fragment instantiating the class
(`<keyname>_uc = <ClassName>()`), and an import of the class from its
module; an object-based use case is referenced directly under the bare
keyname with the instance imported from its module. -/
def generate_use_case_code_build :
    UseCaseCodeInfo → PyStr × StaticPythonConstructData
  | UseCaseCodeInfo.cls keyname _docs mod className =>
    (keyname ++ "_uc".data,
     { build := keyname ++ "_uc = ".data ++ (className ++ "()".data),
       importing := [(mod, [className])] })
  | UseCaseCodeInfo.obj keyname _docs mod instanceName =>
    (keyname, { build := [], importing := [(mod, [instanceName])] })

/-- C8: class-based generation derives the name `<keyname>_uc`, a build
fragment containing the instantiation expression `<ClassName>()`, and
an import table mapping the module to the class name; in particular the
test fixture (`my_use_case_cls`, `my_module`, `MyUseCase`) yields name
`my_use_case_cls_uc`, build text containing `MyUseCase()` and import
table `my_module` to `MyUseCase`. -/
theorem C8_class_codegen :
    (∀ k d m c : PyStr,
      (generate_use_case_code_build (UseCaseCodeInfo.cls k d m c)).1
        = k ++ "_uc".data ∧
      (c ++ "()".data)
        <:+: (generate_use_case_code_build (UseCaseCodeInfo.cls k d m c)).2.build ∧
      (generate_use_case_code_build (UseCaseCodeInfo.cls k d m c)).2.importing
        = [(m, [c])]) ∧
    (generate_use_case_code_build
        (UseCaseCodeInfo.cls "my_use_case_cls".data "docs".data
          "my_module".data "MyUseCase".data)).1 = "my_use_case_cls_uc".data ∧
    ("MyUseCase()".data
      <:+: (generate_use_case_code_build
        (UseCaseCodeInfo.cls "my_use_case_cls".data "docs".data
          "my_module".data "MyUseCase".data)).2.build) ∧
    (generate_use_case_code_build
        (UseCaseCodeInfo.cls "my_use_case_cls".data "docs".data
          "my_module".data "MyUseCase".data)).2.importing
      = [("my_module".data, ["MyUseCase".data])] := by
  refine ⟨?_, by decide, by decide, by decide⟩
  intro k d m c
  refine ⟨rfl, ?_, rfl⟩
  exact ⟨k ++ "_uc = ".data, [], by simp [generate_use_case_code_build]⟩
